import Mathlib

/-!
Shallow embedding of the Social Insecurity application's data-access layer
(`app/database.py`) and request handlers (`app/routes.py`).

The SQLite store is modelled as in-memory lists of rows; `CURRENT_TIMESTAMP`
is modelled as an explicit `now : Nat` argument threaded by the caller;
SQLite's autoincrement row ids are modelled by `nextUserId` etc.
-/

/-! ## Python `html.escape` (quote=True, the default) -/

/-- Replacement for a single character, matching Python `html.escape` with
`quote=True`: the sequential `str.replace` passes of the CPython source are
equivalent to this per-character map because no replacement string contains a
character targeted by a later pass.  `Char.ofNat 39` is the apostrophe and
`Char.ofNat 34` the double quote. -/
def escChar (c : Char) : List Char :=
  if c = '&' then "&amp;".toList
  else if c = '<' then "&lt;".toList
  else if c = '>' then "&gt;".toList
  else if c = Char.ofNat 34 then "&quot;".toList
  else if c = Char.ofNat 39 then "&#x27;".toList
  else [c]

/-- Escape every character of a character list. -/
def escapeList : List Char → List Char
  | [] => []
  | c :: cs => escChar c ++ escapeList cs

/-- Python `html.escape(s)` (both call sites in `database.py` use
`quote=True`, explicitly in `create_post` and by default elsewhere). -/
def html_escape (s : String) : String :=
  String.mk (escapeList s.data)

/-! ## Data model: one structure per table of the schema -/

/-- A row of the `Users` table (identity columns plus the profile columns
written by `update_profile`). -/
structure UserRec where
  id : Nat
  username : String
  first_name : String
  last_name : String
  password : String
  education : String
  employment : String
  music : String
  movie : String
  nationality : String
  birthday : String
deriving DecidableEq, Repr

/-- A row of the `Posts` table.  `image` is the filename column (empty string
when no file reference was recorded). -/
structure PostRec where
  id : Nat
  u_id : Nat
  content : String
  image : String
  creation_time : Nat
deriving DecidableEq, Repr

/-- A row of the `Comments` table. -/
structure CommentRec where
  id : Nat
  p_id : Nat
  u_id : Nat
  comment : String
  creation_time : Nat
deriving DecidableEq, Repr

/-- A row of the `Friends` table: one directed edge `u_id → f_id`. -/
structure FriendRec where
  u_id : Nat
  f_id : Nat
deriving DecidableEq, Repr

/-- The whole relational store. -/
structure DB where
  users : List UserRec
  posts : List PostRec
  comments : List CommentRec
  friends : List FriendRec
deriving DecidableEq, Repr

/-- Store-level error raised by the sqlite3 driver. -/
inductive DBError
  | integrityError
deriving DecidableEq, Repr

/-- Next autoincrement id for `Users`. -/
def nextUserId (db : DB) : Nat :=
  db.users.foldr (fun u m => max u.id m) 0 + 1

/-- Next autoincrement id for `Posts`. -/
def nextPostId (db : DB) : Nat :=
  db.posts.foldr (fun p m => max p.id m) 0 + 1

/-- Next autoincrement id for `Comments`. -/
def nextCommentId (db : DB) : Nat :=
  db.comments.foldr (fun c m => max c.id m) 0 + 1

/-! ## Persistence layer (`SQLite3` methods of `app/database.py`) -/

/-- Model of `SQLite3.get_user`: `SELECT * FROM Users WHERE username = ?` with the
parameter `html.escape(username)`; `fetchone` returns the first match. -/
def get_user (db : DB) (username : String) : Option UserRec :=
  db.users.find? (fun u => u.username = html_escape username)

/-- Model of `SQLite3.create_user`: `INSERT INTO Users (username, first_name,
last_name, password) VALUES (?, ?, ?, ?)` with every parameter passed through
`html.escape`.  Modelled from the spec for the part outside `src/`: the schema
file declares `username UNIQUE`, so an insert with an existing username
raises `sqlite3.IntegrityError` instead of returning; profile columns start
empty. -/
def create_user (db : DB) (username first_name last_name password : String) :
    Except DBError (DB × Nat) :=
  if db.users.any (fun u => u.username = html_escape username) then
    Except.error DBError.integrityError
  else
    Except.ok
      ({ db with
          users := db.users ++
            [{ id := nextUserId db
               username := html_escape username
               first_name := html_escape first_name
               last_name := html_escape last_name
               password := html_escape password
               education := ""
               employment := ""
               music := ""
               movie := ""
               nationality := ""
               birthday := "" }] },
        1)

/-- Model of `SQLite3.create_post`: sanitizes the content with
`html.escape(content, quote=True)` and inserts with `CURRENT_TIMESTAMP`
(modelled by `now`); returns `cursor.rowcount`. -/
def create_post (db : DB) (u_id : Nat) (content image : String) (now : Nat) :
    DB × Nat :=
  ({ db with
      posts := db.posts ++
        [{ id := nextPostId db
           u_id := u_id
           content := html_escape content
           image := image
           creation_time := now }] },
    1)

/-- Model of `SQLite3.get_post`: post joined with its author. -/
def get_post (db : DB) (post_id : Nat) : Option (PostRec × UserRec) :=
  (db.posts.find? (fun p => p.id = post_id)).bind
    (fun p => (db.users.find? (fun u => u.id = p.u_id)).map (fun u => (p, u)))

/-- Model of `SQLite3.create_comment`: inserts `html.escape(comment)` with
`CURRENT_TIMESTAMP` (modelled by `now`); returns `cursor.rowcount`. -/
def create_comment (db : DB) (post_id user_id : Nat) (comment : String)
    (now : Nat) : DB × Nat :=
  ({ db with
      comments := db.comments ++
        [{ id := nextCommentId db
           p_id := post_id
           u_id := user_id
           comment := html_escape comment
           creation_time := now }] },
    1)

/-- The `cc` column of `get_posts`:
`SELECT COUNT(*) FROM Comments WHERE p_id = p.id`. -/
def commentCount (db : DB) (post_id : Nat) : Nat :=
  (db.comments.filter (fun c => c.p_id = post_id)).length

/-- The `WHERE` clause of `get_posts`: the post author is in
`SELECT u_id FROM Friends WHERE f_id = ?`, or in
`SELECT f_id FROM Friends WHERE u_id = ?`, or is the user themselves. -/
def visibleTo (db : DB) (user_id author : Nat) : Bool :=
  db.friends.any (fun f => f.f_id = user_id && f.u_id = author)
  || db.friends.any (fun f => f.u_id = user_id && f.f_id = author)
  || author = user_id

/-- One result row of `get_posts`: the post columns, the joined author
columns, and the comment-count column `cc`. -/
structure FeedRow where
  post : PostRec
  author : UserRec
  cc : Nat
deriving DecidableEq, Repr

/-- The `JOIN Users AS u ON u.id = p.u_id` step of `get_posts`, together with
the `cc` subquery. -/
def feedJoin (db : DB) (p : PostRec) : Option FeedRow :=
  (db.users.find? (fun u => u.id = p.u_id)).map
    (fun u => { post := p, author := u, cc := commentCount db p.id })

/-- Insert into a list kept in descending `key` order (`ORDER BY ... DESC`). -/
def insertDesc {α : Type} (key : α → Nat) (x : α) : List α → List α
  | [] => [x]
  | y :: ys => if key y ≤ key x then x :: y :: ys else y :: insertDesc key x ys

/-- Sort a list into descending `key` order (`ORDER BY ... DESC`). -/
def sortDesc {α : Type} (key : α → Nat) : List α → List α
  | [] => []
  | x :: xs => insertDesc key x (sortDesc key xs)

/-- Model of `SQLite3.get_posts`: filter by the friendship/self clause, join the
author, annotate with the comment count, `ORDER BY p.creation_time DESC`. -/
def get_posts (db : DB) (user_id : Nat) : List FeedRow :=
  sortDesc (fun r => r.post.creation_time)
    ((db.posts.filter (fun p => visibleTo db user_id p.u_id)).filterMap
      (feedJoin db))

/-- Model of `SQLite3.get_comments`: comments of the post joined with their author,
`ORDER BY creation_time DESC` (the `DISTINCT` is modelled by `dedup`). -/
def get_comments (db : DB) (post_id : Nat) :
    List (CommentRec × UserRec) :=
  sortDesc (fun r => r.1.creation_time)
    (((db.comments.filter (fun c => c.p_id = post_id)).filterMap
      (fun c => (db.users.find? (fun u => u.id = c.u_id)).map
        (fun u => (c, u)))).dedup)

/-- Model of `SQLite3.get_friend`: `SELECT f_id FROM Friends WHERE u_id = ?`. -/
def get_friend (db : DB) (user_id : Nat) : List Nat :=
  (db.friends.filter (fun f => f.u_id = user_id)).map (fun f => f.f_id)

/-- Model of `SQLite3.get_friends`: friend identity rows for edges sourced at
`user_id`, excluding self-edges. -/
def get_friends (db : DB) (user_id : Nat) : List UserRec :=
  (db.friends.filter (fun f => f.u_id = user_id && f.f_id ≠ user_id)).filterMap
    (fun f => db.users.find? (fun u => u.id = f.f_id))

/-- Model of `SQLite3.create_friend`: inserts one directed edge, returns
`cursor.rowcount`. -/
def create_friend (db : DB) (user_id friend_id : Nat) : DB × Nat :=
  ({ db with friends := db.friends ++ [{ u_id := user_id, f_id := friend_id }] },
    1)

/-- Model of `SQLite3.update_profile`: one `UPDATE` of all profile columns for the
rows whose `username` equals `html.escape(username)`.  The source escapes
`education`, `employment`, `music`, `movie` and `nationality` but passes
`birthday` through unescaped; returns `cursor.rowcount`. -/
def update_profile (db : DB)
    (username education employment music movie nationality birthday : String) :
    DB × Nat :=
  let key := html_escape username
  ({ db with
      users := db.users.map (fun w =>
        if w.username = key then
          { w with
              education := html_escape education
              employment := html_escape employment
              music := html_escape music
              movie := html_escape movie
              nationality := html_escape nationality
              birthday := birthday }
        else w) },
    (db.users.filter (fun w => w.username = key)).length)

/-! ## Request handlers (`app/routes.py`)

A handler is modelled as a function of the store, the URL parameters and an
`Option`-valued form (`none` = GET or failed validation, matching Flask-WTF
`validate_on_submit`).  A handler that indexes into a `None` user record
(Python `TypeError`) is modelled as `Except.error HandlerErr.noneSubscript`;
an uncaught store error propagates as `Except.error` of the `DBError`. -/

/-- A flashed message with its category. -/
inductive Flash
  | warning : String → Flash
  | success : String → Flash
deriving DecidableEq, Repr

/-- Runtime failure of a handler. -/
inductive HandlerErr
  | noneSubscript
deriving DecidableEq, Repr

/-- Outcome of the index handler: re-render the index page, or redirect. -/
inductive Outcome
  | rendered (flashes : List Flash)
  | redirected (url : String) (flashes : List Flash)
deriving DecidableEq, Repr

/-- Modelled from the spec: the bcrypt collaborator (outside the core) is a
one-way salted hash with a verify operation; salts are elided, the hash is an
injective tagging of the plaintext. -/
def hashPassword (p : String) : String :=
  "bcrypt-hash$" ++ p

/-- Model of `bcrypt.check_password_hash` against the model hash. -/
def check_password_hash (hash p : String) : Bool :=
  hash = hashPassword p

/-- The login branch of `index` (`routes.py` lines 33-46): fetch the user by
the submitted username; flash the same generic warning when the user is
absent or when the hash of `html.escape(password)` does not verify; redirect
to the user's stream on success. -/
def login_submit (db : DB) (username password : String) : Outcome :=
  match get_user db username with
  | none => Outcome.rendered [Flash.warning "Sorry, username or password is not valid!"]
  | some user =>
      if check_password_hash user.password (html_escape password) then
        Outcome.redirected ("stream/" ++ username) []
      else
        Outcome.rendered [Flash.warning "Sorry, username or password is not valid!"]

/-- The register branch of `index` (`routes.py` lines 48-60): hash the
password, call `create_user`, flash success and redirect when it returns 1,
flash a warning otherwise.  A store error from `create_user` is not caught by
the handler and propagates. -/
def register_submit (db : DB) (username first_name last_name password : String) :
    Except DBError (DB × Outcome) :=
  match create_user db username first_name last_name (hashPassword password) with
  | Except.error e => Except.error e
  | Except.ok (db2, n) =>
      if n = 1 then
        Except.ok (db2, Outcome.redirected "index"
          [Flash.success "User successfully created!"])
      else
        Except.ok (db2, Outcome.rendered
          [Flash.warning "Somthing went wrong, user was not created!"])

/-- A validated post-form submission on the stream page.  Modelled from the
spec for the part outside `src/` (`app/forms.py`): the image field of the
form yields a file value whose `filename` is the empty string when no file
was attached, and the `if post_form.image.data:` truthiness check is whether
a file was attached (non-empty filename). -/
structure PostSubmission where
  content : String
  imageFilename : String
deriving DecidableEq, Repr

/-- Rendered result of the stream handler. -/
inductive StreamOut
  | redirect (username : String)
  | feed (rows : List FeedRow)
deriving DecidableEq, Repr

/-- The `stream` handler (`routes.py` lines 89-112): resolve the URL's
username, on a valid submission save the attached image (the list of saved
filenames is the second component), create the post from `user["id"]` and
redirect; otherwise render the feed of `user["id"]`.  Both paths subscript a
`None` record when the username is unknown. -/
def stream_handler (db : DB) (username : String)
    (form : Option PostSubmission) (now : Nat) :
    Except HandlerErr (DB × List String × StreamOut) :=
  match form, get_user db username with
  | some _, none => Except.error HandlerErr.noneSubscript
  | some s, some user =>
      let saved := if s.imageFilename ≠ "" then [s.imageFilename] else []
      Except.ok ((create_post db user.id s.content s.imageFilename now).1,
        saved, StreamOut.redirect username)
  | none, none => Except.error HandlerErr.noneSubscript
  | none, some user => Except.ok (db, [], StreamOut.feed (get_posts db user.id))

/-- The `comments` handler (`routes.py` lines 115-135): on a valid
submission insert a comment attributed to `user["id"]` (subscripting a
`None` record when the username is unknown); in every case re-fetch and
render the post and its comment thread. -/
def comments_handler (db : DB) (username : String) (post_id : Nat)
    (form : Option String) (now : Nat) :
    Except HandlerErr
      (DB × Option (PostRec × UserRec) × List (CommentRec × UserRec)) :=
  match form, get_user db username with
  | some _, none => Except.error HandlerErr.noneSubscript
  | some text, some user =>
      let db2 := (create_comment db post_id user.id text now).1
      Except.ok (db2, get_post db2 post_id, get_comments db2 post_id)
  | none, _ => Except.ok (db, get_post db post_id, get_comments db post_id)

/-- The submission branch of the `friends` handler (`routes.py` lines
150-165): look up the target username, reject a nonexistent target, a
self-friendship, or a target already among the requester's outbound edges;
otherwise insert the edge and flash success. -/
def friends_form_action (db : DB) (user : UserRec) (target : String) :
    DB × Flash :=
  match get_user db target with
  | none => (db, Flash.warning "User does not exist!")
  | some friend =>
      if friend.id = user.id then
        (db, Flash.warning "You cannot be friends with yourself!")
      else if (get_friend db user.id).contains friend.id then
        (db, Flash.warning "You are already friends with this user!")
      else
        ((create_friend db user.id friend.id).1,
          Flash.success "Friend successfully added!")

/-- The `friends` handler (`routes.py` lines 138-168): resolve the URL's
username, run the submission branch when a form was submitted, and always
render the friend list of `user["id"]` — subscripting a `None` record when
the username is unknown, on GET as well as on POST. -/
def friends_handler (db : DB) (username : String) (form : Option String) :
    Except HandlerErr (DB × List Flash × List UserRec) :=
  match form, get_user db username with
  | some _, none => Except.error HandlerErr.noneSubscript
  | some target, some user =>
      let r := friends_form_action db user target
      Except.ok (r.1, [r.2], get_friends r.1 user.id)
  | none, none => Except.error HandlerErr.noneSubscript
  | none, some user => Except.ok (db, [], get_friends db user.id)

/-- A validated profile-form submission. -/
structure ProfileSubmission where
  education : String
  employment : String
  music : String
  movie : String
  nationality : String
  birthday : String
deriving DecidableEq, Repr

/-- Rendered result of the profile handler. -/
inductive ProfileOut
  | redirect (username : String)
  | page (user : Option UserRec)
deriving DecidableEq, Repr

/-- The `profile` handler (`routes.py` lines 171-190): on a valid submission
call `update_profile` with the URL's username and redirect; otherwise render
the page with the looked-up user value (possibly `None`).  The handler never
subscripts the user record, so it cannot raise on a missing user. -/
def profile_handler (db : DB) (username : String)
    (form : Option ProfileSubmission) : DB × ProfileOut :=
  match form with
  | some s =>
      ((update_profile db username s.education s.employment s.music
          s.movie s.nationality s.birthday).1,
        ProfileOut.redirect username)
  | none => (db, ProfileOut.page (get_user db username))

/-! ## Example stores used by witnesses and counterexamples -/

/-- A user row with empty profile fields. -/
def mkUser (id : Nat) (uname : String) : UserRec :=
  { id := id, username := uname, first_name := "F", last_name := "L",
    password := "", education := "", employment := "", music := "",
    movie := "", nationality := "", birthday := "" }

/-- Three users; bob follows alice (edge 2 → 1); one post each. -/
def exDB1 : DB :=
  { users := [mkUser 1 "alice1", mkUser 2 "bob1", mkUser 3 "carol1"],
    posts := [{ id := 1, u_id := 1, content := "a", image := "", creation_time := 5 },
              { id := 2, u_id := 2, content := "b", image := "", creation_time := 9 },
              { id := 3, u_id := 3, content := "c", image := "", creation_time := 7 }],
    comments := [],
    friends := [{ u_id := 2, f_id := 1 }] }

/-- The empty store. -/
def emptyDB : DB :=
  { users := [], posts := [], comments := [], friends := [] }

/-- Alice's stored row after registration: a bcrypt hash, never plaintext. -/
def aliceU : UserRec :=
  { mkUser 1 "alice1" with password := hashPassword "pw1" }

/-- A store with just alice, for the login witness. -/
def exDB6 : DB :=
  { users := [aliceU], posts := [], comments := [], friends := [] }


/-! ## Lemmas about the `ORDER BY ... DESC` model -/

theorem mem_insertDesc {α : Type} (key : α → Nat) (x a : α) :
    ∀ l : List α, (a ∈ insertDesc key x l ↔ a = x ∨ a ∈ l) := by
  intro l
  induction l with
  | nil => simp [insertDesc]
  | cons y ys ih =>
      by_cases h : key y ≤ key x
      · simp [insertDesc, h]
      · simp only [insertDesc, if_neg h, List.mem_cons, ih]
        tauto

theorem insertDesc_perm {α : Type} (key : α → Nat) (x : α) (l : List α) :
    List.Perm (insertDesc key x l) (x :: l) := by
  induction l with
  | nil => exact List.Perm.refl _
  | cons y ys ih =>
      by_cases h : key y ≤ key x
      · simp only [insertDesc, if_pos h]
        exact List.Perm.refl _
      · simp only [insertDesc, if_neg h]
        exact (ih.cons y).trans (List.Perm.swap x y ys)

theorem sortDesc_perm {α : Type} (key : α → Nat) (l : List α) :
    List.Perm (sortDesc key l) l := by
  induction l with
  | nil => exact List.Perm.refl _
  | cons x xs ih =>
      exact (insertDesc_perm key x (sortDesc key xs)).trans (ih.cons x)

theorem mem_sortDesc {α : Type} (key : α → Nat) (a : α) (l : List α) :
    a ∈ sortDesc key l ↔ a ∈ l :=
  (sortDesc_perm key l).mem_iff

theorem pairwise_insertDesc {α : Type} (key : α → Nat) (x : α) (l : List α)
    (h : l.Pairwise (fun a b => key b ≤ key a)) :
    (insertDesc key x l).Pairwise (fun a b => key b ≤ key a) := by
  induction l with
  | nil => simp [insertDesc]
  | cons y ys ih =>
      rcases List.pairwise_cons.mp h with ⟨hy, hys⟩
      by_cases hc : key y ≤ key x
      · simp only [insertDesc, if_pos hc]
        refine List.pairwise_cons.mpr ⟨?_, h⟩
        intro z hz
        rcases List.mem_cons.mp hz with hz | hz
        · exact hz ▸ hc
        · exact le_trans (hy z hz) hc
      · simp only [insertDesc, if_neg hc]
        refine List.pairwise_cons.mpr ⟨?_, ih hys⟩
        intro z hz
        rcases (mem_insertDesc key x z ys).mp hz with hz | hz
        · exact hz ▸ le_of_lt (Nat.lt_of_not_le hc)
        · exact hy z hz

theorem sortDesc_pairwise {α : Type} (key : α → Nat) (l : List α) :
    (sortDesc key l).Pairwise (fun a b => key b ≤ key a) := by
  induction l with
  | nil => simp [sortDesc]
  | cons x xs ih => exact pairwise_insertDesc key x (sortDesc key xs) ih

/-! ## Claim C1: the `get_posts` feed -/

/-- C1: for every user id `u` (in a store whose posts all have an existing
author row, as every reachable store does), `get_posts db u` is ordered by
creation time descending, every returned row is a post authored by `u` or by
a user connected to `u` by a friendship edge in either direction and carries
that post's comment count and author row, every such post appears, and the
visibility test is exactly "some edge touches `u` and the author, in either
direction, or the author is `u`" — posts from unconnected users are
excluded. -/
theorem get_posts_feed_spec (db : DB) (u : Nat)
    (hauth : ∀ p ∈ db.posts, ∃ w ∈ db.users, w.id = p.u_id) :
    ((get_posts db u).Pairwise
        (fun a b => b.post.creation_time ≤ a.post.creation_time))
  ∧ (∀ r ∈ get_posts db u,
        r.post ∈ db.posts ∧ visibleTo db u r.post.u_id = true ∧
        r.author ∈ db.users ∧ r.author.id = r.post.u_id ∧
        r.cc = commentCount db r.post.id)
  ∧ (∀ p ∈ db.posts, visibleTo db u p.u_id = true →
        ∃ r ∈ get_posts db u, r.post = p)
  ∧ (∀ a : Nat, visibleTo db u a = true ↔
        ((∃ f ∈ db.friends, f.u_id = a ∧ f.f_id = u) ∨
         (∃ f ∈ db.friends, f.u_id = u ∧ f.f_id = a) ∨ a = u)) := by
  refine ⟨sortDesc_pairwise _ _, ?_, ?_, ?_⟩
  · intro r hr
    rw [get_posts, mem_sortDesc] at hr
    rcases List.mem_filterMap.mp hr with ⟨p, hp, hjoin⟩
    rcases List.mem_filter.mp hp with ⟨hpmem, hvis⟩
    rw [feedJoin] at hjoin
    rcases Option.map_eq_some'.mp hjoin with ⟨w, hfind, hrow⟩
    subst hrow
    refine ⟨hpmem, by simpa using hvis, List.mem_of_find?_eq_some hfind, ?_, rfl⟩
    have hpred := List.find?_some hfind
    simpa using hpred
  · intro p hp hvis
    rcases hauth p hp with ⟨w, hw, hwid⟩
    have hfilter : p ∈ db.posts.filter (fun q => visibleTo db u q.u_id) :=
      List.mem_filter.mpr ⟨hp, by simpa using hvis⟩
    have hsome : (db.users.find? (fun x => x.id = p.u_id)).isSome := by
      rw [List.find?_isSome]
      exact ⟨w, hw, by simpa using hwid⟩
    rcases Option.isSome_iff_exists.mp hsome with ⟨w2, hw2⟩
    refine ⟨{ post := p, author := w2, cc := commentCount db p.id }, ?_, rfl⟩
    rw [get_posts, mem_sortDesc]
    exact List.mem_filterMap.mpr ⟨p, hfilter, by rw [feedJoin, hw2]; rfl⟩
  · intro a
    simp only [visibleTo, Bool.or_eq_true, List.any_eq_true, Bool.and_eq_true,
      decide_eq_true_eq]
    constructor
    · rintro ((⟨f, hf, h1, h2⟩ | ⟨f, hf, h1, h2⟩) | h)
      · exact Or.inl ⟨f, hf, h2, h1⟩
      · exact Or.inr (Or.inl ⟨f, hf, h1, h2⟩)
      · exact Or.inr (Or.inr h)
    · rintro (⟨f, hf, h1, h2⟩ | ⟨f, hf, h1, h2⟩ | h)
      · exact Or.inl (Or.inl ⟨f, hf, h2, h1⟩)
      · exact Or.inl (Or.inr ⟨f, hf, h1, h2⟩)
      · exact Or.inr h

/-- Witness for C1 at a concrete store: the author-rows side condition holds
in `exDB1` and the conclusion applies to user 1. -/
theorem get_posts_feed_spec_witness :
    (∀ p ∈ exDB1.posts, ∃ w ∈ exDB1.users, w.id = p.u_id) ∧
    ((get_posts exDB1 1).Pairwise
        (fun a b => b.post.creation_time ≤ a.post.creation_time)) :=
  ⟨by decide, (get_posts_feed_spec exDB1 1 (by decide)).1⟩

/-! ## Claim C2: friendship-edge creation in the friends handler -/

theorem get_friend_contains_iff (db : DB) (uid fid : Nat) :
    ((get_friend db uid).contains fid = true) ↔ FriendRec.mk uid fid ∈ db.friends := by
  rw [List.elem_iff]
  simp only [get_friend, List.mem_map, List.mem_filter, decide_eq_true_eq]
  constructor
  · rintro ⟨f, ⟨hf, hu⟩, hfid⟩
    obtain ⟨fu, ff⟩ := f
    cases hu
    cases hfid
    exact hf
  · intro hf
    exact ⟨⟨uid, fid⟩, ⟨hf, rfl⟩, rfl⟩

theorem append_singleton_ne {α : Type} (l : List α) (x : α) : l ++ [x] ≠ l := by
  intro h
  have := congrArg List.length h
  simp at this

/-- C2: with the requesting user `user` resolved from the URL, the friends
handler delegates to the submission branch, and that branch inserts an edge
iff the target username resolves to an existing user whose id differs from
the requester's and to whom the requester has no existing outbound edge; when
it inserts, the new store is the old one with the single edge
`user.id → friend.id` appended and a success flash; a target resolving to the
requester themselves is always rejected unchanged, regardless of the store;
an existing outbound edge to the target always blocks, while an inbound edge
from the target never appears in the checked set `get_friend db user.id`. -/
theorem friends_edge_creation_iff (db : DB) (uname target : String)
    (user : UserRec) (h : get_user db uname = some user) :
    (friends_handler db uname (some target) =
       Except.ok ((friends_form_action db user target).1,
         [(friends_form_action db user target).2],
         get_friends (friends_form_action db user target).1 user.id))
  ∧ ((friends_form_action db user target).1.friends ≠ db.friends ↔
       ∃ friend, get_user db target = some friend ∧ friend.id ≠ user.id ∧
         FriendRec.mk user.id friend.id ∉ db.friends)
  ∧ (∀ friend, get_user db target = some friend → friend.id ≠ user.id →
       FriendRec.mk user.id friend.id ∉ db.friends →
       (friends_form_action db user target).1.friends =
           db.friends ++ [FriendRec.mk user.id friend.id] ∧
         (friends_form_action db user target).2 =
           Flash.success "Friend successfully added!")
  ∧ (get_user db target = some user →
       friends_form_action db user target =
         (db, Flash.warning "You cannot be friends with yourself!"))
  ∧ (∀ friend, get_user db target = some friend →
       FriendRec.mk user.id friend.id ∈ db.friends →
       (friends_form_action db user target).1 = db) := by
  refine ⟨?_, ?_, ?_, ?_, ?_⟩
  · unfold friends_handler
    rw [h]
  · constructor
    · intro hne
      cases hfr : get_user db target with
      | none => simp [friends_form_action, hfr] at hne
      | some friend =>
          simp only [friends_form_action, hfr] at hne
          by_cases hself : friend.id = user.id
          · rw [if_pos hself] at hne; simp at hne
          · rw [if_neg hself] at hne
            by_cases hdup : (get_friend db user.id).contains friend.id = true
            · rw [if_pos hdup] at hne; simp at hne
            · refine ⟨friend, rfl, hself, ?_⟩
              intro hmem
              exact hdup ((get_friend_contains_iff db user.id friend.id).mpr hmem)
    · rintro ⟨friend, hfr, hself, hmem⟩
      have hc : ¬((get_friend db user.id).contains friend.id = true) :=
        fun hc => hmem ((get_friend_contains_iff db user.id friend.id).mp hc)
      simp only [friends_form_action, hfr]
      rw [if_neg hself, if_neg hc]
      simp only [create_friend]
      exact append_singleton_ne db.friends _
  · intro friend hfr hself hmem
    have hc : ¬((get_friend db user.id).contains friend.id = true) :=
      fun hc => hmem ((get_friend_contains_iff db user.id friend.id).mp hc)
    simp only [friends_form_action, hfr]
    rw [if_neg hself, if_neg hc]
    exact ⟨rfl, rfl⟩
  · intro hfr
    simp [friends_form_action, hfr]
  · intro friend hfr hmem
    have hc : (get_friend db user.id).contains friend.id = true :=
      (get_friend_contains_iff db user.id friend.id).mpr hmem
    by_cases hself : friend.id = user.id
    · simp only [friends_form_action, hfr]
      rw [if_pos hself]
    · simp only [friends_form_action, hfr]
      rw [if_neg hself, if_pos hc]

/-- Witness for C2: in `exDB1`, user alice (id 1) requesting friendship with
`bob1` creates the single outbound edge 1 → 2 — even though the inbound edge
2 → 1 already exists. -/
theorem friends_edge_creation_iff_witness :
    get_user exDB1 "alice1" = some (mkUser 1 "alice1") ∧
    (friends_form_action exDB1 (mkUser 1 "alice1") "bob1").1.friends =
      exDB1.friends ++ [FriendRec.mk 1 2] :=
  ⟨by decide,
    ((friends_edge_creation_iff exDB1 "alice1" "bob1" (mkUser 1 "alice1")
        (by decide)).2.2.1 (mkUser 2 "bob1") (by decide) (by decide)
        (by decide)).1⟩

/-! ## Claim C3: duplicate registration -/

/-- C3 divergence, evaluated at the failing input: registering `carol1`
succeeds with a success flash and a redirect, and registering `carol1` again
makes `create_user` raise a store integrity error that `register_submit` does
not catch — the handler's duplicate-failure flash is never produced — while
the store keeps exactly one row for that username. -/
theorem register_duplicate_unhandled :
    ∃ db1, register_submit emptyDB "carol1" "C" "D" "pw" =
        Except.ok (db1, Outcome.redirected "index"
          [Flash.success "User successfully created!"])
      ∧ register_submit db1 "carol1" "C" "D" "pw2" =
          Except.error DBError.integrityError
      ∧ (db1.users.filter (fun w => w.username = "carol1")).length = 1 :=
  ⟨_, rfl, rfl, rfl⟩

/-! ## Claims C4 and C8: `update_profile` -/

theorem find?_map_of_pred {α : Type} (p : α → Bool) (g : α → α)
    (hg : ∀ x, p (g x) = p x) :
    ∀ l : List α, (l.find? p).map g = (l.map g).find? p := by
  intro l
  induction l with
  | nil => rfl
  | cons x xs ih =>
      by_cases hx : p x = true
      · rw [List.find?_cons_of_pos _ hx, List.map_cons,
          List.find?_cons_of_pos _ (by rw [hg]; exact hx)]
        rfl
      · rw [List.find?_cons_of_neg _ (by simpa using hx), List.map_cons,
          List.find?_cons_of_neg _ (by rw [hg]; simpa using hx)]
        exact ih

/-- Fetching the named user after `update_profile`: the row comes back with
the five escaped free-text fields and the verbatim birthday. -/
theorem update_profile_get_user (db : DB)
    (uname e j m f n b : String) (w : UserRec)
    (h : get_user db uname = some w) :
    get_user (update_profile db uname e j m f n b).1 uname =
      some { w with education := html_escape e, employment := html_escape j,
                    music := html_escape m, movie := html_escape f,
                    nationality := html_escape n, birthday := b } := by
  have h' : db.users.find? (fun u => u.username = html_escape uname) = some w := h
  have hg : ∀ x : UserRec,
      (fun u : UserRec => decide (u.username = html_escape uname))
          ((fun v : UserRec => if v.username = html_escape uname then
              { v with education := html_escape e, employment := html_escape j,
                       music := html_escape m, movie := html_escape f,
                       nationality := html_escape n, birthday := b }
            else v) x) =
        (fun u : UserRec => decide (u.username = html_escape uname)) x := by
    intro x
    by_cases hx : x.username = html_escape uname <;> simp [hx]
  show (db.users.map _).find? _ = _
  rw [← find?_map_of_pred _ _ hg db.users, h']
  have hw : w.username = html_escape uname := by
    have := List.find?_some h'
    simpa using this
  simp [hw]

/-- C4 counterexample: `update_profile` persists a markup-bearing `birthday`
verbatim, not in escaped form, so the claim fails at this input. -/
theorem update_profile_birthday_unescaped_cex :
    ((get_user (update_profile exDB1 "bob1" "e" "w" "m" "f" "n"
        "<i>x</i>").1 "bob1").map UserRec.birthday = some "<i>x</i>")
  ∧ html_escape "<i>x</i>" ≠ "<i>x</i>" :=
  ⟨rfl, by decide⟩

/-- C4 (amended): `update_profile` HTML-escapes the free-text fields
education, employment, music, movie and nationality before persisting, but
writes birthday verbatim, unescaped. -/
theorem update_profile_sanitizes_free_text (db : DB)
    (uname e j m f n b : String) (w : UserRec)
    (h : get_user db uname = some w) :
    ∃ w2, get_user (update_profile db uname e j m f n b).1 uname = some w2
      ∧ w2.education = html_escape e ∧ w2.employment = html_escape j
      ∧ w2.music = html_escape m ∧ w2.movie = html_escape f
      ∧ w2.nationality = html_escape n ∧ w2.birthday = b :=
  ⟨_, update_profile_get_user db uname e j m f n b w h,
    rfl, rfl, rfl, rfl, rfl, rfl⟩

/-- Witness for C4 (amended) at a concrete store. -/
theorem update_profile_sanitizes_free_text_witness :
    get_user exDB1 "bob1" = some (mkUser 2 "bob1") ∧
    ∃ w2, get_user (update_profile exDB1 "bob1" "<a>" "w" "m" "f" "n"
        "<i>x</i>").1 "bob1" = some w2
      ∧ w2.education = html_escape "<a>" ∧ w2.employment = html_escape "w"
      ∧ w2.music = html_escape "m" ∧ w2.movie = html_escape "f"
      ∧ w2.nationality = html_escape "n" ∧ w2.birthday = "<i>x</i>" :=
  ⟨rfl, update_profile_sanitizes_free_text exDB1 "bob1" "<a>" "w" "m" "f" "n"
    "<i>x</i>" (mkUser 2 "bob1") rfl⟩

/-- C8 counterexample: after updating `education` to `<i>x</i>` the fetched
value is the escaped string, not the submitted one — the fields are not
reflected exactly as submitted. -/
theorem update_profile_not_verbatim_cex :
    ((get_user (update_profile exDB1 "bob1" "<i>x</i>" "w" "m" "f" "n"
        "1990").1 "bob1").map UserRec.education = some "&lt;i&gt;x&lt;/i&gt;")
  ∧ ("&lt;i&gt;x&lt;/i&gt;" : String) ≠ "<i>x</i>" :=
  ⟨rfl, by decide⟩

/-- C8 (amended): `update_profile` for user U changes only U's row — the
post, comment and friend tables and every user row with a different username
are untouched — and fetching U afterward returns the row with birthday
exactly as submitted and the other fields in HTML-escaped form (equal to the
submission whenever it contains no markup-significant characters). -/
theorem update_profile_frame (db : DB) (uname e j m f n b : String)
    (w : UserRec) (h : get_user db uname = some w) :
    ((update_profile db uname e j m f n b).1.posts = db.posts
      ∧ (update_profile db uname e j m f n b).1.comments = db.comments
      ∧ (update_profile db uname e j m f n b).1.friends = db.friends)
  ∧ (∀ v ∈ db.users, v.username ≠ html_escape uname →
       v ∈ (update_profile db uname e j m f n b).1.users)
  ∧ (∀ v ∈ (update_profile db uname e j m f n b).1.users,
       v.username ≠ html_escape uname → v ∈ db.users)
  ∧ get_user (update_profile db uname e j m f n b).1 uname =
      some { w with education := html_escape e, employment := html_escape j,
                    music := html_escape m, movie := html_escape f,
                    nationality := html_escape n, birthday := b } := by
  refine ⟨⟨rfl, rfl, rfl⟩, ?_, ?_, update_profile_get_user db uname e j m f n b w h⟩
  · intro v hv hne
    simp only [update_profile]
    exact List.mem_map.mpr ⟨v, hv, by rw [if_neg hne]⟩
  · intro v hv hne
    simp only [update_profile] at hv
    rcases List.mem_map.mp hv with ⟨x, hx, hgx⟩
    by_cases hxe : x.username = html_escape uname
    · rw [if_pos hxe] at hgx
      exfalso
      apply hne
      rw [← hgx]
      exact hxe
    · rw [if_neg hxe] at hgx
      exact hgx ▸ hx

/-- Witness for C8 (amended): bob's untouched row survives an update to
alice's profile, and alice's fetched row carries the escaped fields. -/
theorem update_profile_frame_witness :
    get_user exDB1 "alice1" = some (mkUser 1 "alice1") ∧
    mkUser 2 "bob1" ∈
      (update_profile exDB1 "alice1" "<a>" "w" "m" "f" "n" "1990").1.users :=
  ⟨rfl, (update_profile_frame exDB1 "alice1" "<a>" "w" "m" "f" "n" "1990"
      (mkUser 1 "alice1") rfl).2.1 (mkUser 2 "bob1") (by decide) (by decide)⟩

/-! ## Claim C5: the stream post form -/

/-- C5: for a valid post-form submission by an existing user, the stream
handler creates the post — content escaped at write time, image reference the
submitted filename — and redirects to the same stream; in particular when no
image is attached (empty filename) no file is saved and the post is still
created, with an empty image reference, followed by the redirect. -/
theorem stream_valid_post_redirects (db : DB) (uname content fname : String)
    (now : Nat) (user : UserRec) (h : get_user db uname = some user) :
    (stream_handler db uname (some ⟨content, fname⟩) now =
       Except.ok ((create_post db user.id content fname now).1,
         (if fname ≠ "" then [fname] else []), StreamOut.redirect uname))
  ∧ (stream_handler db uname (some ⟨content, ""⟩) now =
       Except.ok ({ db with posts := db.posts ++
           [{ id := nextPostId db, u_id := user.id,
              content := html_escape content, image := "",
              creation_time := now }] }, [], StreamOut.redirect uname)) := by
  constructor
  · unfold stream_handler
    rw [h]
  · unfold stream_handler
    rw [h]
    simp [create_post]

/-- Witness for C5: alice posts without an image; the post is stored with an
empty image reference and the handler redirects. -/
theorem stream_valid_post_redirects_witness :
    get_user exDB1 "alice1" = some (mkUser 1 "alice1") ∧
    stream_handler exDB1 "alice1" (some ⟨"hi", ""⟩) 10 =
      Except.ok ({ exDB1 with posts := exDB1.posts ++
          [{ id := nextPostId exDB1, u_id := (mkUser 1 "alice1").id,
             content := html_escape "hi", image := "",
             creation_time := 10 }] }, [], StreamOut.redirect "alice1") :=
  ⟨rfl, (stream_valid_post_redirects exDB1 "alice1" "hi" "" 10
      (mkUser 1 "alice1") rfl).2⟩

/-! ## Claim C6: login enumeration resistance -/

/-- C6: an unknown username and an existing username with a non-verifying
password produce the same observable outcome — the index page re-rendered
with the identical generic warning. -/
theorem login_no_enumeration (db : DB) (u1 p1 u2 p2 : String) (w : UserRec)
    (h1 : get_user db u1 = none) (h2 : get_user db u2 = some w)
    (h3 : check_password_hash w.password (html_escape p2) = false) :
    login_submit db u1 p1 =
      Outcome.rendered [Flash.warning "Sorry, username or password is not valid!"]
  ∧ login_submit db u2 p2 =
      Outcome.rendered [Flash.warning "Sorry, username or password is not valid!"]
  ∧ login_submit db u1 p1 = login_submit db u2 p2 := by
  have e1 : login_submit db u1 p1 =
      Outcome.rendered [Flash.warning "Sorry, username or password is not valid!"] := by
    unfold login_submit
    rw [h1]
  have e2 : login_submit db u2 p2 =
      Outcome.rendered [Flash.warning "Sorry, username or password is not valid!"] := by
    unfold login_submit
    rw [h2]
    simp [h3]
  exact ⟨e1, e2, e1.trans e2.symm⟩

/-- Witness for C6: unknown user `nobody` and alice with a wrong password
yield the same outcome. -/
theorem login_no_enumeration_witness :
    get_user exDB6 "nobody" = none ∧
    get_user exDB6 "alice1" = some aliceU ∧
    check_password_hash aliceU.password (html_escape "wrong") = false ∧
    login_submit exDB6 "nobody" "x" = login_submit exDB6 "alice1" "wrong" :=
  ⟨rfl, rfl, by decide,
    (login_no_enumeration exDB6 "nobody" "x" "alice1" "wrong" aliceU
        rfl rfl (by decide)).2.2⟩

/-! ## Claim C7: write-time sanitization of posts and comments -/

theorem escChar_no_markup (c x : Char) (hx : x ∈ escChar c) :
    x ≠ '<' ∧ x ≠ '>' := by
  unfold escChar at hx
  by_cases h1 : c = '&'
  · rw [if_pos h1] at hx
    have hx' : x ∈ ['&', 'a', 'm', 'p', ';'] := hx
    fin_cases hx' <;> decide
  · rw [if_neg h1] at hx
    by_cases h2 : c = '<'
    · rw [if_pos h2] at hx
      have hx' : x ∈ ['&', 'l', 't', ';'] := hx
      fin_cases hx' <;> decide
    · rw [if_neg h2] at hx
      by_cases h3 : c = '>'
      · rw [if_pos h3] at hx
        have hx' : x ∈ ['&', 'g', 't', ';'] := hx
        fin_cases hx' <;> decide
      · rw [if_neg h3] at hx
        by_cases h4 : c = Char.ofNat 34
        · rw [if_pos h4] at hx
          have hx' : x ∈ ['&', 'q', 'u', 'o', 't', ';'] := hx
          fin_cases hx' <;> decide
        · rw [if_neg h4] at hx
          by_cases h5 : c = Char.ofNat 39
          · rw [if_pos h5] at hx
            have hx' : x ∈ ['&', '#', 'x', '2', '7', ';'] := hx
            fin_cases hx' <;> decide
          · rw [if_neg h5] at hx
            have hx' : x = c := List.mem_singleton.mp hx
            subst hx'
            exact ⟨h2, h3⟩

theorem escapeList_no_markup :
    ∀ l : List Char, ∀ x ∈ escapeList l, x ≠ '<' ∧ x ≠ '>' := by
  intro l
  induction l with
  | nil =>
      intro x hx
      simp [escapeList] at hx
  | cons c cs ih =>
      intro x hx
      rcases List.mem_append.mp (by simpa [escapeList] using hx) with hx | hx
      · exact escChar_no_markup c x hx
      · exact ih x hx

/-- C7: `create_post` and `create_comment` persist exactly the HTML-escaped
form of the submitted text (the single `html.escape` call at write time), the
stored text never contains a raw markup delimiter, and the example
`<b>hi</b>` round-trips as literal escaped text. -/
theorem content_sanitized_at_write (db : DB) (uid pid : Nat)
    (content text img : String) (now : Nat) :
    ((create_post db uid content img now).1.posts =
       db.posts ++
         [{ id := nextPostId db, u_id := uid,
            content := html_escape content, image := img,
            creation_time := now }])
  ∧ ((create_comment db pid uid text now).1.comments =
       db.comments ++
         [{ id := nextCommentId db, p_id := pid, u_id := uid,
            comment := html_escape text, creation_time := now }])
  ∧ (∀ x ∈ (html_escape content).toList, x ≠ '<' ∧ x ≠ '>')
  ∧ html_escape "<b>hi</b>" = "&lt;b&gt;hi&lt;/b&gt;" := by
  refine ⟨rfl, rfl, ?_, by decide⟩
  intro x hx
  exact escapeList_no_markup content.data x hx

/-- Witness for C7: the stored row of a markup-bearing post. -/
theorem content_sanitized_at_write_witness :
    html_escape "<b>hi</b>" = "&lt;b&gt;hi&lt;/b&gt;" ∧
    (create_post emptyDB 1 "<b>hi</b>" "" 3).1.posts =
      [{ id := nextPostId emptyDB, u_id := 1,
         content := html_escape "<b>hi</b>", image := "",
         creation_time := 3 }] :=
  ⟨(content_sanitized_at_write emptyDB 1 1 "<b>hi</b>" "" "" 3).2.2.2,
    (content_sanitized_at_write emptyDB 1 1 "<b>hi</b>" "" "" 3).1⟩

/-! ## Claims C9 and C10: missing users in URL-resolved handlers -/

/-- C9 counterexample: a GET to the comments route with an unknown username
completes with a rendered post-plus-thread response instead of failing, so
not every request to the three routes dereferences the absent user. -/
theorem comments_missing_user_completes_cex :
    get_user exDB1 "ghost" = none ∧
    comments_handler exDB1 "ghost" 1 none 5 =
      Except.ok (exDB1, get_post exDB1 1, get_comments exDB1 1) :=
  ⟨rfl, rfl⟩

/-- C9 (amended): when the URL username has no user record, the stream and
friends handlers fail on the null dereference for every request (GET or valid
POST), and the comments handler fails exactly on a valid submission — a plain
GET to comments completes with a defined rendered response. -/
theorem missing_user_null_deref (db : DB) (uname : String) (pid now : Nat)
    (h : get_user db uname = none) :
    (∀ form, stream_handler db uname form now =
        Except.error HandlerErr.noneSubscript)
  ∧ (∀ form, friends_handler db uname form =
        Except.error HandlerErr.noneSubscript)
  ∧ (∀ text, comments_handler db uname pid (some text) now =
        Except.error HandlerErr.noneSubscript)
  ∧ comments_handler db uname pid none now =
      Except.ok (db, get_post db pid, get_comments db pid) := by
  refine ⟨?_, ?_, ?_, ?_⟩
  · intro form
    cases form <;> (unfold stream_handler; rw [h])
  · intro form
    cases form <;> (unfold friends_handler; rw [h])
  · intro text
    unfold comments_handler
    rw [h]
  · unfold comments_handler
    rw [h]

/-- Witness for C9 (amended): the stream handler fails for `ghost`. -/
theorem missing_user_null_deref_witness :
    get_user exDB1 "ghost" = none ∧
    stream_handler exDB1 "ghost" none 5 =
      Except.error HandlerErr.noneSubscript :=
  ⟨rfl, (missing_user_null_deref exDB1 "ghost" 1 5 rfl).1 none⟩

theorem map_id_of_eq {α : Type} (g : α → α) :
    ∀ l : List α, (∀ v ∈ l, g v = v) → l.map g = l := by
  intro l
  induction l with
  | nil => intro _; rfl
  | cons x xs ih =>
      intro hall
      rw [List.map_cons, hall x (List.mem_cons_self x xs),
        ih (fun v hv => hall v (List.mem_cons_of_mem x hv))]

/-- An `UPDATE` whose `WHERE username = ?` clause matches no row leaves the
store unchanged. -/
theorem update_profile_no_match (db : DB) (uname e j m f n b : String)
    (h : get_user db uname = none) :
    (update_profile db uname e j m f n b).1 = db := by
  have hall : ∀ v ∈ db.users, ¬(v.username = html_escape uname) := by
    intro v hv hveq
    have hnone : db.users.find? (fun u => u.username = html_escape uname) = none := h
    have := List.find?_eq_none.mp hnone v hv
    simp [hveq] at this
  simp only [update_profile]
  have hmap := map_id_of_eq
    (fun v : UserRec => if v.username = html_escape uname then
        { v with education := html_escape e, employment := html_escape j,
                 music := html_escape m, movie := html_escape f,
                 nationality := html_escape n, birthday := b }
      else v)
    db.users (fun v hv => if_neg (hall v hv))
  rw [hmap]

/-- C10: the profile handler never dereferences the looked-up user: for an
unknown username a GET renders the page with an absent user value and a valid
POST calls `update_profile` (which matches zero rows, leaving the store
unchanged) and redirects — both complete without raising. -/
theorem profile_handler_never_derefs (db : DB) (uname : String)
    (h : get_user db uname = none) :
    profile_handler db uname none = (db, ProfileOut.page none)
  ∧ ∀ s : ProfileSubmission,
      profile_handler db uname (some s) = (db, ProfileOut.redirect uname) := by
  constructor
  · simp [profile_handler, h]
  · intro s
    simp only [profile_handler]
    rw [update_profile_no_match db uname _ _ _ _ _ _ h]

/-- Witness for C10: both request shapes complete for `ghost`. -/
theorem profile_handler_never_derefs_witness :
    get_user exDB1 "ghost" = none ∧
    profile_handler exDB1 "ghost" none = (exDB1, ProfileOut.page none) ∧
    profile_handler exDB1 "ghost"
        (some ⟨"e", "w", "m", "f", "n", "1990"⟩) =
      (exDB1, ProfileOut.redirect "ghost") :=
  ⟨rfl, (profile_handler_never_derefs exDB1 "ghost" rfl).1,
    (profile_handler_never_derefs exDB1 "ghost" rfl).2
      ⟨"e", "w", "m", "f", "n", "1990"⟩⟩
